import Mathlib

set_option linter.unusedVariables false
set_option linter.unnecessarySeqFocus false
set_option linter.unnecessarySimpa false

/-!
Shallow embedding of the Perplexity model selector browser content script
(content_script.js). The script injects model-selection dropdowns into a host
page, persists choices through REST calls, and re-injects after DOM mutations.

Modelling conventions:
- Network calls are modelled by explicit outcome parameters (the possible
  results of fetch, response.ok and response.json observed by the code).
- The DOM is modelled structurally: a dropdown span holds one select element,
  a container div holds its class list and its dropdown spans, and a page
  element records which selector configurations match it (CSS selector
  matching against the host page markup is abstracted as per-element boolean
  match flags; the injected subtree contains no span.grow.block node and sits
  one child level below the selector chains, so injection does not change the
  match set) together with the list of its descendants carrying the
  model-selector class.
- Assigning to select.value is modelled as storing the string in the value
  field; a freshly built select shows its first option, as in the DOM.
- JS dynamic values reaching checkShouldHide and resolveAdditionalClasses are
  modelled by a small universe JSVal covering the typeof categories the code
  distinguishes.
-/

/-- Ambient page information a configuration callback can read; the script
only ever reads the pathname of the current location. -/
structure PageEnv where
  pathname : String
deriving DecidableEq

/-- A JS runtime value, tagged by the typeof categories relevant to the
script. Functions are modelled as maps from the page environment. -/
inductive JSVal where
  | jsBool (b : Bool)
  | str (s : String)
  | num (n : Int)
  | jsNull
  | undef
  | array (elems : List JSVal)
  | obj
  | func (f : PageEnv → JSVal)

/-- A thrown JS exception relevant to the script: a TypeError with a message. -/
inductive JSError where
  | typeError (msg : String)
deriving DecidableEq

/-- The JS typeof operator on the modelled value universe. -/
def jsTypeof : JSVal → String
  | .jsBool _ => "boolean"
  | .str _ => "string"
  | .num _ => "number"
  | .jsNull => "object"
  | .undef => "undefined"
  | .array _ => "object"
  | .obj => "object"
  | .func _ => "function"

/-- JS truthiness of a modelled value. -/
def jsTruthy : JSVal → Bool
  | .jsBool b => b
  | .str s => s ≠ ""
  | .num n => n ≠ 0
  | .jsNull => false
  | .undef => false
  | .array _ => true
  | .obj => true
  | .func _ => true

/-- Array.isArray on the modelled value universe. -/
def jsIsArray : JSVal → Bool
  | .array _ => true
  | _ => false

/-- Calling a modelled JS function value. Every call site in the script is
guarded by a typeof check, so the non-function fallback is unreachable there. -/
def jsCall : JSVal → PageEnv → JSVal
  | .func f, env => f env
  | v, _ => v

mutual

/-- JS ToString coercion on the modelled value universe, used by
classList.add for non-string tokens. -/
def jsToString : JSVal → String
  | .jsBool b => if b then "true" else "false"
  | .str s => s
  | .num n => toString n
  | .jsNull => "null"
  | .undef => "undefined"
  | .array xs => jsToStringList xs
  | .obj => "[object Object]"
  | .func _ => "function"

/-- Elements of an array joined with commas, as JS Array.prototype.toString. -/
def jsToStringList : List JSVal → String
  | [] => ""
  | [x] => jsToString x
  | x :: y :: rest => jsToString x ++ "," ++ jsToStringList (y :: rest)

end

/-- Iterating a modelled value with for..of: arrays yield their elements,
strings their characters, anything else throws. -/
def jsIterate : JSVal → Except JSError (List JSVal)
  | .array xs => .ok xs
  | .str s => .ok (s.data.map (fun c => .str (String.mk [c])))
  | v => .error (.typeError (jsTypeof v ++ " is not iterable"))

/-- JS split of a character list at every slash, keeping empty segments,
matching String.prototype.split with separator "/". -/
def splitChar : List Char → List (List Char)
  | [] => [[]]
  | c :: rest =>
    if c = '/' then [] :: splitChar rest
    else
      match splitChar rest with
      | [] => [[c]]
      | g :: gs => (c :: g) :: gs

/-- Function onSearchPage of the script: drop the first character of the
pathname, split at slashes, and compare the first segment with search. -/
def onSearchPage (pathname : String) : Bool :=
  ((splitChar (pathname.data.drop 1)).headD []) == "search".data

/-- Function checkShouldHide of the script: a boolean is returned as is, a
function is called, and any other typeof throws a TypeError. -/
def checkShouldHide (shouldHide : JSVal) (env : PageEnv) : Except JSError JSVal :=
  match jsTypeof shouldHide with
  | "boolean" => .ok shouldHide
  | "function" => .ok (jsCall shouldHide env)
  | t => .error (.typeError ("Invalid type \"" ++ t ++ "\" passed to checkIsHidden(...)."))

/-- Function resolveAdditionalClasses of the script: an array is returned
unchanged, otherwise a non-function throws a TypeError, otherwise the
function is called. -/
def resolveAdditionalClasses (additionalClasses : JSVal) (env : PageEnv) : Except JSError JSVal :=
  if jsIsArray additionalClasses then .ok additionalClasses
  else if jsTypeof additionalClasses ≠ "function" then
    .error (.typeError ("Invalid type " ++ jsTypeof additionalClasses ++
      " passed to resolveAdditionalClasses(...)."))
  else .ok (jsCall additionalClasses env)

/-- Entry of the responseModels or imageModels arrays. -/
structure ModelEntry where
  title : String
  value : String
deriving DecidableEq

/-- An option element of a select: its value attribute and text content. -/
structure OptionEl where
  value : String
  textContent : String
deriving DecidableEq

/-- A select element: its option children in order and its current value. -/
structure SelectEl where
  options : List OptionEl
  value : String
deriving DecidableEq

/-- The span built by createDropdown: its class list and its single select. -/
structure DropdownSpan where
  classes : List String
  select : SelectEl
deriving DecidableEq

/-- classList.add: appends the token unless it is already present. -/
def classListAdd (classes : List String) (token : String) : List String :=
  if classes.contains token then classes else classes ++ [token]

/-- Method createDropdown of the script (variant with two dropdowns): builds
a span with class inner-container, optionally class hidden, and a select
whose options mirror the models list in order. A fresh select shows its
first option; a truthy currentValue is then assigned to select.value. The
change, click and blur listeners are event wiring and carry no data, so
they are not modelled. -/
def createDropdown (models : List ModelEntry) (currentValue : Option String)
    (isHidden : Bool) : DropdownSpan :=
  let classes := classListAdd [] "inner-container"
  let classes := if isHidden then classListAdd classes "hidden" else classes
  let opts := models.map fun m => OptionEl.mk m.value m.title
  let initValue := match opts.head? with
    | some o => o.value
    | none => ""
  let value := match currentValue with
    | some s => if s ≠ "" then s else initValue
    | none => initValue
  { classes := classes, select := { options := opts, value := value } }

/-- Array responseModels of the first two-dropdown variant. -/
def responseModels : List ModelEntry :=
  [⟨"Default", "turbo"⟩,
   ⟨"Claude 3.5 Sonnet", "claude2"⟩,
   ⟨"Sonar Large", "experimental"⟩,
   ⟨"GPT-4o", "gpt4o"⟩,
   ⟨"Sonar Huge", "llama_x_large"⟩,
   ⟨"Grok-2", "grok"⟩,
   ⟨"Claude 3.5 Haiku", "claude35haiku"⟩]

/-- Array imageModels of the first two-dropdown variant. -/
def imageModels : List ModelEntry :=
  [⟨"Playground v3", "default"⟩,
   ⟨"DALL-E 3", "dall-e-3"⟩,
   ⟨"Stable Diffusion XL", "sdxl"⟩,
   ⟨"FLUX.1", "flux"⟩]

/-- The two mutable model fields of the ModelSelector instance. -/
structure ModelState where
  currentResponseModel : Option String
  currentImageModel : Option String
deriving DecidableEq

/-- JS truthiness of a nullable string field: null and the empty string are
falsy. -/
def optTruthy : Option String → Bool
  | none => false
  | some s => s ≠ ""

/-- A container div carrying the model-selector class. The containers field
of a page element lists exactly its descendants with that class, in document
order, so a freshly injected container is appended at the end. -/
structure ContainerDiv where
  classes : List String
  dropdowns : List DropdownSpan
deriving DecidableEq

/-- An element matched against the selector configurations. The two match
flags abstract CSS matching of the two configured selectors; containers
lists the descendants with class model-selector. -/
structure PageElement where
  matchesMainBar : Bool
  matchesNewThread : Bool
  containers : List ContainerDiv
  positionRelative : Bool
deriving DecidableEq

/-- The page is the list of elements the selector configurations can match. -/
abbrev Page := List PageElement

/-- Replaces the value of the select at a given index of a dropdown list,
leaving the list unchanged when the index is out of range. -/
def setDropdownValueAt : List DropdownSpan → Nat → String → List DropdownSpan
  | [], _, _ => []
  | d :: rest, 0, v => { d with select := { d.select with value := v } } :: rest
  | d :: rest, n + 1, v => d :: setDropdownValueAt rest n v

/-- Method syncDropdowns restricted to one container: destructures the first
two selects of the container as responseSelect and imageSelect and assigns
the stored model values to them when the stored value is truthy and the
select exists. -/
def syncContainer (st : ModelState) (c : ContainerDiv) : ContainerDiv :=
  let ds0 := c.dropdowns
  let ds1 := if optTruthy st.currentResponseModel && decide (0 < ds0.length)
    then setDropdownValueAt ds0 0 (st.currentResponseModel.getD "") else ds0
  let ds2 := if optTruthy st.currentImageModel && decide (1 < ds1.length)
    then setDropdownValueAt ds1 1 (st.currentImageModel.getD "") else ds1
  { c with dropdowns := ds2 }

/-- Method syncDropdowns of the script (identical text in the first and
third variants): visits every element with class model-selector on the page
and synchronises its first two selects with the stored model values. -/
def syncDropdowns (st : ModelState) (page : Page) : Page :=
  page.map fun e => { e with containers := e.containers.map (syncContainer st) }

/-- The PUT request built by handleModelChange, recorded structurally. The
JSON body is the object updated_settings containing the single setting key
mapped to the setting value. -/
structure HttpRequest where
  method : String
  url : String
  contentType : String
  accept : String
  settingKey : String
  settingValue : String
  credentialsInclude : Bool
deriving DecidableEq

/-- Observable result of the save-settings round trip: the fetch promise can
reject, or a response arrives with an ok flag and a body that either parses
as JSON or does not. -/
inductive PutOutcome where
  | fetchThrow
  | response (ok : Bool) (jsonParses : Bool)
deriving DecidableEq

/-- True exactly when the outcome carries a response whose ok flag is set. -/
def httpOk : PutOutcome → Bool
  | .response ok _ => ok
  | .fetchThrow => false

/-- True on every outcome that makes handleModelChange take its error path. -/
def putFailed : PutOutcome → Bool
  | .response true true => false
  | _ => true

/-- Events handleModelChange can emit, in order: console logging, issuing
the PUT request, console error logging, and invoking syncDropdowns. -/
inductive HmcEv where
  | consoleLog (msg : String)
  | putRequest (req : HttpRequest)
  | consoleError
  | syncCall
deriving DecidableEq

/-- Result of a handleModelChange run: its event trace, the model state it
leaves behind, and the page after any syncDropdowns it performed. -/
structure HmcResult where
  trace : List HmcEv
  state : ModelState
  page : Page
deriving DecidableEq

/-- Method handleModelChange of the first two-dropdown variant: computes the
setting key from the model type, issues one PUT to the save-settings
endpoint, updates the matching field and synchronises dropdowns on success,
and on any failure logs the error and synchronises dropdowns with the
unchanged state. -/
def handleModelChangeV1 (st : ModelState) (page : Page) (modelValue : String)
    (modelType : String) (outcome : PutOutcome) : HmcResult :=
  let settingKey := if modelType = "response" then "default_model"
    else "default_image_generation_model"
  let logEv := HmcEv.consoleLog ("Changing " ++ modelType ++ " model to " ++ modelValue)
  let req : HttpRequest :=
    { method := "PUT"
      url := "https://www.perplexity.ai/rest/user/save-settings?version=2.13&source=default"
      contentType := "application/json"
      accept := "application/json"
      settingKey := settingKey
      settingValue := modelValue
      credentialsInclude := true }
  match outcome with
  | .response true true =>
    let st' := if modelType = "response" then { st with currentResponseModel := some modelValue }
      else { st with currentImageModel := some modelValue }
    { trace := [logEv, .putRequest req, .syncCall]
      state := st'
      page := syncDropdowns st' page }
  | _ =>
    { trace := [logEv, .putRequest req, .consoleError, .syncCall]
      state := st
      page := syncDropdowns st page }

/-- Method handleModelChange of the third variant: the try block issues the
same PUT and updates the matching field on success, the catch block logs the
error, and the finally block always invokes syncDropdowns. -/
def handleModelChangeV3 (st : ModelState) (page : Page) (modelValue : String)
    (modelType : String) (outcome : PutOutcome) : HmcResult :=
  let settingKey := if modelType = "response" then "default_model"
    else "default_image_generation_model"
  let logEv := HmcEv.consoleLog ("Changing " ++ modelType ++ " model to " ++ modelValue)
  let req : HttpRequest :=
    { method := "PUT"
      url := "https://www.perplexity.ai/rest/user/save-settings?version=2.13&source=default"
      contentType := "application/json"
      accept := "application/json"
      settingKey := settingKey
      settingValue := modelValue
      credentialsInclude := true }
  let tryCatch : List HmcEv × ModelState :=
    match outcome with
    | .response true true =>
      ([logEv, .putRequest req],
        if modelType = "response" then { st with currentResponseModel := some modelValue }
        else { st with currentImageModel := some modelValue })
    | _ => ([logEv, .putRequest req, .consoleError], st)
  { trace := tryCatch.1 ++ [.syncCall]
    state := tryCatch.2
    page := syncDropdowns tryCatch.2 page }

/-- Projection extracting the PUT request from a trace event, if any. -/
def putRequestOf : HmcEv → Option HttpRequest
  | .putRequest r => some r
  | _ => none

/-- Entry of the selectorConfigs array: the CSS selector string and the three
configuration values, which are dynamic JS values resolved through
checkShouldHide and resolveAdditionalClasses. -/
structure SelectorConfig where
  selector : String
  shouldShowResponseModels : JSVal
  shouldShowImageModels : JSVal
  additionalClasses : JSVal

/-- First selectorConfigs entry of the script: the main bar of the homepage
and the search page. Response models are shown off the search page only, and
the space-bottom class is added off the search page only. -/
def mainBarConfig : SelectorConfig :=
  { selector := "main span.grow.block > div > div > div > div:last-of-type"
    shouldShowResponseModels := .func fun env => .jsBool (! onSearchPage env.pathname)
    shouldShowImageModels := .jsBool true
    additionalClasses := .func fun env =>
      .array (if ! onSearchPage env.pathname then [.str "space-bottom"] else []) }

/-- Second selectorConfigs entry of the script: the New Thread bar. Both
dropdowns are always shown and the space-bottom class is always added. -/
def newThreadConfig : SelectorConfig :=
  { selector := "body > div:last-of-type span.grow.block > div > div > div > div:last-of-type"
    shouldShowResponseModels := .jsBool true
    shouldShowImageModels := .jsBool true
    additionalClasses := .array [.str "space-bottom"] }

/-- The selectorConfigs array of the first two-dropdown variant. -/
def selectorConfigs : List SelectorConfig := [mainBarConfig, newThreadConfig]

/-- The container div injectDropdowns builds for one matched element under a
given configuration: class model-selector plus the resolved additional
classes, then the response dropdown and the image dropdown, each built by
createDropdown with hidden state the negation of the resolved show flag. -/
def mkContainer (env : PageEnv) (st : ModelState) (cfg : SelectorConfig) :
    Except JSError ContainerDiv := do
  let base := classListAdd [] "model-selector"
  let extraV ← resolveAdditionalClasses cfg.additionalClasses env
  let extra ← jsIterate extraV
  let classes := List.foldl (fun cs c => classListAdd cs (jsToString c)) base extra
  let showResp ← checkShouldHide cfg.shouldShowResponseModels env
  let respDropdown := createDropdown responseModels st.currentResponseModel (! jsTruthy showResp)
  let showImg ← checkShouldHide cfg.shouldShowImageModels env
  let imgDropdown := createDropdown imageModels st.currentImageModel (! jsTruthy showImg)
  pure { classes := classes, dropdowns := [respDropdown, imgDropdown] }

/-- One configuration pass of injectDropdowns: every element matched by the
configuration that has no descendant with class model-selector receives a
fresh container and relative positioning; all other elements are untouched. -/
def injectForConfig (env : PageEnv) (st : ModelState) (cfg : SelectorConfig)
    (pick : PageElement → Bool) : Page → Except JSError Page
  | [] => .ok []
  | e :: rest => do
    let e' ← if pick e && e.containers.isEmpty then do
        let c ← mkContainer env st cfg
        pure { e with containers := e.containers ++ [c], positionRelative := true }
      else pure e
    let rest' ← injectForConfig env st cfg pick rest
    pure (e' :: rest')

/-- Method injectDropdowns of the first two-dropdown variant: processes the
two selector configurations in order over the whole page. -/
def injectDropdowns (env : PageEnv) (st : ModelState) (page : Page) :
    Except JSError Page := do
  let page1 ← injectForConfig env st mainBarConfig (fun e => e.matchesMainBar) page
  injectForConfig env st newThreadConfig (fun e => e.matchesNewThread) page1

/-- Observable result of one getCurrentModel round trip: the fetch promise
can reject, the response can fail the ok check, the body can fail to parse,
or a parsed body arrives whose value at the requested setting key is the
given optional string. -/
inductive SettingsFetchOutcome where
  | netThrow
  | httpError
  | jsonError
  | success (value : Option String)
deriving DecidableEq

/-- True exactly when the outcome lets getCurrentModel return normally. -/
def fetchSucceeded : SettingsFetchOutcome → Bool
  | .success _ => true
  | _ => false

/-- State effect of method getCurrentModel for a setting key: on a parsed
body whose value at the key is truthy, the field selected by the key
comparison is overwritten; every other outcome leaves the state unchanged
and rethrows after logging. -/
def applyGetCurrentModel (settingKey : String) (o : SettingsFetchOutcome)
    (st : ModelState) : ModelState :=
  match o with
  | .success v =>
    if optTruthy v then
      if settingKey = "default_model" then { st with currentResponseModel := v }
      else { st with currentImageModel := v }
    else st
  | _ => st

/-- Actions observable from init and from the mutation observer callback:
an injectDropdowns invocation or a console error log. -/
inductive SysAction where
  | injectCall
  | logError
deriving DecidableEq

/-- Instance state relevant to initialization: the model fields, the
initialized flag, and whether the MutationObserver has been installed. -/
structure SysState where
  st : ModelState
  initialized : Bool
  observerInstalled : Bool
deriving DecidableEq

/-- Method init of the first two-dropdown variant: awaits both
getCurrentModel calls through Promise.all (their field effects commute, so
they are applied in list order), and only when both succeed sets
initialized, installs the observer and invokes injectDropdowns; otherwise
the errors are logged and none of those three effects happen. -/
def runInit (o1 o2 : SettingsFetchOutcome) (sys : SysState) : SysState × List SysAction :=
  let st1 := applyGetCurrentModel "default_model" o1 sys.st
  let st2 := applyGetCurrentModel "default_image_generation_model" o2 st1
  let fetchLogs := (if fetchSucceeded o1 then [] else [SysAction.logError]) ++
    (if fetchSucceeded o2 then [] else [SysAction.logError])
  if fetchSucceeded o1 && fetchSucceeded o2 then
    ({ st := st2, initialized := true, observerInstalled := true },
      fetchLogs ++ [SysAction.injectCall])
  else
    ({ sys with st := st2 }, fetchLogs ++ [SysAction.logError])

/-- The MutationObserver callback of the script: for each mutation record,
in order, injectDropdowns is invoked exactly when the record has at least
one added node and the initialized flag is set. Each record is represented
by the length of its addedNodes list. -/
def observerCallback (initialized : Bool) (mutations : List Nat) : List SysAction :=
  List.foldl
    (fun acc added => if added != 0 && initialized then acc ++ [SysAction.injectCall] else acc)
    [] mutations

/-- External events driving the script after load: completion of the init
settings round trips, or a batch of DOM mutation records delivered to the
observer if one is installed. -/
inductive PageEvent where
  | initDone (o1 o2 : SettingsFetchOutcome)
  | domMutation (addedCounts : List Nat)
deriving DecidableEq

/-- One event transition of the script. -/
def stepEvent (sys : SysState) : PageEvent → SysState × List SysAction
  | .initDone o1 o2 => runInit o1 o2 sys
  | .domMutation ms =>
    if sys.observerInstalled then (sys, observerCallback sys.initialized ms) else (sys, [])

/-- Runs a sequence of events from a state, concatenating emitted actions. -/
def runEvents (sys : SysState) : List PageEvent → SysState × List SysAction
  | [] => (sys, [])
  | e :: rest =>
    let step := stepEvent sys e
    let tail := runEvents step.1 rest
    (tail.1, step.2 ++ tail.2)

/-- The constructor state of the ModelSelector instance: both model fields
null, not initialized, no observer installed. -/
def sysStart : SysState :=
  { st := { currentResponseModel := none, currentImageModel := none }
    initialized := false
    observerInstalled := false }

/-- True exactly on an init completion event whose two settings fetches both
succeeded. -/
def initSucceeding : PageEvent → Bool
  | .initDone o1 o2 => fetchSucceeded o1 && fetchSucceeded o2
  | .domMutation _ => false

/-- True exactly when a resolver call ended in a thrown TypeError. -/
def isTypeError {α : Type} : Except JSError α → Bool
  | .error (.typeError _) => true
  | .ok _ => false

/-- Concrete page for the claim C2 analysis, before the user touches the
response select: one matched element with one injected container whose two
selects show their first options, turbo and default, because both stored
model fields were null at injection time. -/
def c2PagePre : Page :=
  [{ matchesMainBar := true
     matchesNewThread := false
     containers := [⟨["model-selector"],
       [createDropdown responseModels none false,
        createDropdown imageModels none false]⟩]
     positionRelative := true }]

/-- The same concrete page at the moment the change event fires: the user
picked gpt4o, so the response select already shows gpt4o. -/
def c2PagePost : Page :=
  [{ matchesMainBar := true
     matchesNewThread := false
     containers := [⟨["model-selector"],
       [createDropdown responseModels (some "gpt4o") false,
        createDropdown imageModels none false]⟩]
     positionRelative := true }]

/-- Effect of syncDropdowns on the first select of a container: assigned the
stored response model when that is truthy. Used to characterise
syncContainer. -/
def applyRespSync (st : ModelState) (d : DropdownSpan) : DropdownSpan :=
  if optTruthy st.currentResponseModel
  then { d with select := { d.select with value := st.currentResponseModel.getD "" } }
  else d

/-- Effect of syncDropdowns on the second select of a container: assigned
the stored image model when that is truthy. Used to characterise
syncContainer. -/
def applyImgSync (st : ModelState) (d : DropdownSpan) : DropdownSpan :=
  if optTruthy st.currentImageModel
  then { d with select := { d.select with value := st.currentImageModel.getD "" } }
  else d

/-- Per-element effect of one configuration pass of injectDropdowns, used to
characterise injectForConfig: a matched element without a model-selector
descendant receives the container and relative positioning. -/
def injectStep (c : ContainerDiv) (pick : PageElement → Bool) (e : PageElement) : PageElement :=
  if pick e && e.containers.isEmpty
  then { e with containers := e.containers ++ [c], positionRelative := true }
  else e

/-- Value of the container injectDropdowns builds for the main bar
configuration: the response dropdown is hidden exactly on the search page,
the image dropdown is never hidden, and space-bottom is added off the
search page. -/
def mainBarContainer (env : PageEnv) (st : ModelState) : ContainerDiv :=
  { classes := if onSearchPage env.pathname then ["model-selector"]
      else ["model-selector", "space-bottom"]
    dropdowns := [createDropdown responseModels st.currentResponseModel (onSearchPage env.pathname),
                  createDropdown imageModels st.currentImageModel false] }

/-- Value of the container injectDropdowns builds for the New Thread
configuration: neither dropdown is ever hidden. -/
def newThreadContainer (st : ModelState) : ContainerDiv :=
  { classes := ["model-selector", "space-bottom"]
    dropdowns := [createDropdown responseModels st.currentResponseModel false,
                  createDropdown imageModels st.currentImageModel false] }

/-- Concrete environment for the claim C4 witness: the home page. -/
def c4Env : PageEnv := { pathname := "/" }

/-- Concrete page for the claim C4 witness: one element matched by the main
bar selector and one matched by the New Thread selector, both still empty. -/
def c4Page : Page :=
  [{ matchesMainBar := true, matchesNewThread := false, containers := [],
     positionRelative := false },
   { matchesMainBar := false, matchesNewThread := true, containers := [],
     positionRelative := false }]

/-- The claim C4 witness page after one injectDropdowns run. -/
def c4PageOnce : Page :=
  (injectDropdowns c4Env ⟨none, none⟩ c4Page).toOption.getD []

/-! Lemmas about the slash split. -/

theorem splitChar_ne_nil (l : List Char) : splitChar l ≠ [] := by
  cases l with
  | nil => simp [splitChar]
  | cons c rest =>
    unfold splitChar
    by_cases h : c = '/'
    · simp [h]
    · simp only [h, if_false]
      cases hs : splitChar rest <;> simp

theorem splitChar_headD (l : List Char) :
    (splitChar l).headD [] = l.takeWhile (fun c => c != '/') := by
  induction l with
  | nil => simp [splitChar]
  | cons c rest ih =>
    unfold splitChar
    by_cases h : c = '/'
    · simp [h, List.takeWhile]
    · simp only [h, if_false]
      cases hs : splitChar rest with
      | nil => exact absurd hs (splitChar_ne_nil rest)
      | cons g gs =>
        rw [hs] at ih
        simp only [List.headD] at ih ⊢
        simp [List.takeWhile, h, ih]
        have hb : (c != '/') = true := by simp [h]
        simp [hb]

/-- Claim C8: onSearchPage returns true if and only if the first
slash-separated segment of the pathname, after dropping the leading slash,
is exactly the string search; in particular it is true on /search and on
/search/anything, and false on /, /searches and /x/search. -/
theorem onSearchPage_first_segment (p : String) :
    (onSearchPage p = true ↔
      (p.data.drop 1).takeWhile (fun c => c != '/') = "search".data)
    ∧ onSearchPage "/search" = true
    ∧ onSearchPage "/search/anything" = true
    ∧ onSearchPage "/" = false
    ∧ onSearchPage "/searches" = false
    ∧ onSearchPage "/x/search" = false := by
  refine ⟨?_, by decide, by decide, by decide, by decide, by decide⟩
  unfold onSearchPage
  rw [splitChar_headD]
  simp

/-- Claim C9: checkShouldHide returns its argument on a boolean, the result
of calling it on a function, and throws a TypeError on every other typeof;
resolveAdditionalClasses returns its argument unchanged on an array, whose
typeof is object, calls it on a function, and throws a TypeError on every
other input. -/
theorem resolvers_total_on_documented_types (env : PageEnv) (b : Bool)
    (f : PageEnv → JSVal) (xs : List JSVal) (v w : JSVal) :
    checkShouldHide (.jsBool b) env = .ok (.jsBool b)
    ∧ checkShouldHide (.func f) env = .ok (f env)
    ∧ (jsTypeof v ≠ "boolean" → jsTypeof v ≠ "function" →
        isTypeError (checkShouldHide v env) = true)
    ∧ jsTypeof (.array xs) = "object"
    ∧ resolveAdditionalClasses (.array xs) env = .ok (.array xs)
    ∧ resolveAdditionalClasses (.func f) env = .ok (f env)
    ∧ (jsIsArray w = false → jsTypeof w ≠ "function" →
        isTypeError (resolveAdditionalClasses w env) = true) := by
  refine ⟨rfl, rfl, ?_, rfl, rfl, rfl, ?_⟩
  · intro h1 h2
    cases v <;> first
      | rfl
      | (exact absurd rfl h1)
      | (exact absurd rfl h2)
  · intro h1 h2
    cases w <;> first
      | rfl
      | (exact absurd rfl h2)
      | (simp [jsIsArray] at h1)

/-- Witness for claim C9 at concrete inputs: a string is rejected by
checkShouldHide and null is rejected by resolveAdditionalClasses. -/
theorem resolvers_total_on_documented_types_witness :
    jsTypeof (JSVal.str "x") ≠ "boolean"
    ∧ isTypeError (checkShouldHide (.str "x") { pathname := "/" }) = true
    ∧ jsIsArray JSVal.jsNull = false
    ∧ isTypeError (resolveAdditionalClasses .jsNull { pathname := "/" }) = true := by
  refine ⟨by decide, ?_, by decide, ?_⟩
  · exact (resolvers_total_on_documented_types { pathname := "/" } true
      (fun _ => .jsBool true) [] (.str "x") .jsNull).2.2.1 (by decide) (by decide)
  · exact (resolvers_total_on_documented_types { pathname := "/" } true
      (fun _ => .jsBool true) [] (.str "x") .jsNull).2.2.2.2.2.2 (by decide) (by decide)

/-- Claim C7: createDropdown returns a span containing a single select whose
options correspond one to one and in order to the models, each option taking
its value from the model value and its text from the model title; a non-null
non-empty currentValue becomes the select value, and isHidden true adds the
class hidden to the container while isHidden false does not. -/
theorem createDropdown_builds_select (models : List ModelEntry)
    (currentValue : Option String) (isHidden : Bool) :
    (createDropdown models currentValue isHidden).select.options =
      models.map (fun m => OptionEl.mk m.value m.title)
    ∧ (isHidden = true → "hidden" ∈ (createDropdown models currentValue isHidden).classes)
    ∧ (isHidden = false → "hidden" ∉ (createDropdown models currentValue isHidden).classes)
    ∧ (∀ s, currentValue = some s → s ≠ "" →
        (createDropdown models currentValue isHidden).select.value = s) := by
  refine ⟨rfl, ?_, ?_, ?_⟩
  · intro h
    subst h
    simp [createDropdown, classListAdd]
  · intro h
    subst h
    simp [createDropdown, classListAdd]
  · intro s hcv hs
    subst hcv
    simp [createDropdown, hs]

/-- Witness for claim C7 at a concrete input: one model, a matching current
value and a hidden dropdown. -/
theorem createDropdown_builds_select_witness :
    (createDropdown [⟨"Default", "turbo"⟩] (some "turbo") true).select.options =
      [OptionEl.mk "turbo" "Default"]
    ∧ "hidden" ∈ (createDropdown [⟨"Default", "turbo"⟩] (some "turbo") true).classes
    ∧ (createDropdown [⟨"Default", "turbo"⟩] (some "turbo") true).select.value = "turbo" := by
  refine ⟨?_, ?_, ?_⟩
  · exact (createDropdown_builds_select [⟨"Default", "turbo"⟩] (some "turbo") true).1
  · exact (createDropdown_builds_select [⟨"Default", "turbo"⟩] (some "turbo") true).2.1 rfl
  · exact (createDropdown_builds_select [⟨"Default", "turbo"⟩] (some "turbo") true).2.2.2
      "turbo" rfl (by decide)

/-- Counterexample to claim C1 as stated: on an HTTP-ok response whose body
does not parse as JSON, handleModelChange takes the error path and leaves
the matching field unchanged, so an HTTP-ok response alone does not imply
the in-memory update the claim asserts. -/
theorem handleModelChange_ok_response_without_update :
    httpOk (PutOutcome.response true false) = true
    ∧ (handleModelChangeV1 ⟨some "turbo", some "default"⟩ [] "gpt4o" "response"
        (.response true false)).state.currentResponseModel = some "turbo"
    ∧ (handleModelChangeV1 ⟨some "turbo", some "default"⟩ [] "gpt4o" "response"
        (.response true false)).state.currentResponseModel ≠ some "gpt4o" := by
  exact ⟨rfl, rfl, by decide⟩

/-- Claim C1 (amended): for every model change event, handleModelChange
issues exactly one PUT request to the save-settings endpoint whose JSON body
is the object updated_settings mapping the setting key to modelValue, the
key being default_model for modelType response and
default_image_generation_model for modelType image; and on an HTTP-ok
response whose body parses as JSON, the matching in-memory field is updated
to modelValue, the other field being untouched. -/
theorem handleModelChange_one_put_and_update (st : ModelState) (page : Page)
    (modelValue modelType : String) (outcome : PutOutcome) :
    (handleModelChangeV1 st page modelValue modelType outcome).trace.filterMap putRequestOf =
      [{ method := "PUT"
         url := "https://www.perplexity.ai/rest/user/save-settings?version=2.13&source=default"
         contentType := "application/json"
         accept := "application/json"
         settingKey := if modelType = "response" then "default_model"
           else "default_image_generation_model"
         settingValue := modelValue
         credentialsInclude := true }]
    ∧ (outcome = .response true true → modelType = "response" →
        (handleModelChangeV1 st page modelValue modelType outcome).state =
          { st with currentResponseModel := some modelValue })
    ∧ (outcome = .response true true → modelType = "image" →
        (handleModelChangeV1 st page modelValue modelType outcome).state =
          { st with currentImageModel := some modelValue }) := by
  refine ⟨?_, ?_, ?_⟩
  · cases outcome with
    | fetchThrow => simp [handleModelChangeV1, putRequestOf]
    | response ok js => cases ok <;> cases js <;> simp [handleModelChangeV1, putRequestOf]
  · rintro rfl rfl
    simp [handleModelChangeV1]
  · rintro rfl rfl
    simp [handleModelChangeV1]

/-- Witness for claim C1 at a concrete input: a successful response change
to gpt4o issues the expected PUT and stores the value. -/
theorem handleModelChange_one_put_and_update_witness :
    (handleModelChangeV1 ⟨none, none⟩ [] "gpt4o" "response"
        (.response true true)).trace.filterMap putRequestOf =
      [{ method := "PUT"
         url := "https://www.perplexity.ai/rest/user/save-settings?version=2.13&source=default"
         contentType := "application/json"
         accept := "application/json"
         settingKey := "default_model"
         settingValue := "gpt4o"
         credentialsInclude := true }]
    ∧ (handleModelChangeV1 ⟨none, none⟩ [] "gpt4o" "response"
        (.response true true)).state =
      { currentResponseModel := some "gpt4o", currentImageModel := none } := by
  refine ⟨?_, ?_⟩
  · exact (handleModelChange_one_put_and_update ⟨none, none⟩ [] "gpt4o" "response"
      (.response true true)).1
  · exact (handleModelChange_one_put_and_update ⟨none, none⟩ [] "gpt4o" "response"
      (.response true true)).2.1 rfl rfl

theorem syncContainer_dropdowns (st : ModelState) (c : ContainerDiv) :
    (syncContainer st c).dropdowns =
      match c.dropdowns with
      | [] => []
      | [d0] => [applyRespSync st d0]
      | d0 :: d1 :: rest => applyRespSync st d0 :: applyImgSync st d1 :: rest := by
  obtain ⟨cls, ds⟩ := c
  cases hresp : optTruthy st.currentResponseModel <;>
    cases himg : optTruthy st.currentImageModel <;>
      rcases ds with _ | ⟨d0, _ | ⟨d1, rest⟩⟩ <;>
        simp [syncContainer, setDropdownValueAt, applyRespSync, applyImgSync, hresp, himg]

theorem syncContainer_resets_response (st : ModelState) (c : ContainerDiv)
    (r : String) (hr : st.currentResponseModel = some r) (hrne : r ≠ "") :
    ∀ h0 : 0 < (syncContainer st c).dropdowns.length,
      ((syncContainer st c).dropdowns.get ⟨0, h0⟩).select.value = r := by
  have hopt : optTruthy st.currentResponseModel = true := by simp [hr, optTruthy, hrne]
  obtain ⟨cls, ds⟩ := c
  rw [syncContainer_dropdowns]
  rcases ds with _ | ⟨d0, _ | ⟨d1, rest⟩⟩ <;> intro h0 <;>
    simp [applyRespSync, hopt, hr, optTruthy, hrne] at h0 ⊢

theorem syncContainer_resets_image (st : ModelState) (c : ContainerDiv)
    (m : String) (hm : st.currentImageModel = some m) (hmne : m ≠ "") :
    ∀ h1 : 1 < (syncContainer st c).dropdowns.length,
      ((syncContainer st c).dropdowns.get ⟨1, h1⟩).select.value = m := by
  have hopt : optTruthy st.currentImageModel = true := by simp [hm, optTruthy, hmne]
  obtain ⟨cls, ds⟩ := c
  rw [syncContainer_dropdowns]
  rcases ds with _ | ⟨d0, _ | ⟨d1, rest⟩⟩ <;> intro h1 <;>
    simp [applyImgSync, hopt, hm, optTruthy, hmne] at h1 ⊢

/-- Counterexample to claim C2 as stated: with both stored model fields
null, a failing save leaves the state unchanged, logs and invokes
syncDropdowns, but the response select keeps the newly picked value gpt4o
instead of being reset to the pre-change value turbo: the UI is not left as
it was before the change. -/
theorem handleModelChange_failure_not_resetting_ui :
    putFailed PutOutcome.fetchThrow = true
    ∧ (handleModelChangeV1 ⟨none, none⟩ c2PagePost "gpt4o" "response"
        PutOutcome.fetchThrow).state = ⟨none, none⟩
    ∧ (handleModelChangeV1 ⟨none, none⟩ c2PagePost "gpt4o" "response"
        PutOutcome.fetchThrow).page = c2PagePost
    ∧ c2PagePost ≠ c2PagePre := by
  exact ⟨rfl, rfl, by decide, by decide⟩

/-- Claim C2 (amended): whenever the save-settings request fails, the state
is left unchanged, the error is logged, and syncDropdowns is still invoked
on the stored state; every injected select whose corresponding stored model
value is non-null and non-empty is thereby reset to that stored value, while
a select whose stored value is null keeps the value the user just picked. -/
theorem handleModelChange_failure_path (st : ModelState) (page : Page)
    (modelValue modelType : String) (outcome : PutOutcome)
    (hfail : putFailed outcome = true) :
    (handleModelChangeV1 st page modelValue modelType outcome).state = st
    ∧ HmcEv.consoleError ∈ (handleModelChangeV1 st page modelValue modelType outcome).trace
    ∧ HmcEv.syncCall ∈ (handleModelChangeV1 st page modelValue modelType outcome).trace
    ∧ (handleModelChangeV1 st page modelValue modelType outcome).page = syncDropdowns st page
    ∧ (∀ e ∈ (handleModelChangeV1 st page modelValue modelType outcome).page,
       ∀ c ∈ e.containers,
        (∀ r, st.currentResponseModel = some r → r ≠ "" →
          ∀ h0 : 0 < c.dropdowns.length, (c.dropdowns.get ⟨0, h0⟩).select.value = r)
        ∧ (∀ m, st.currentImageModel = some m → m ≠ "" →
          ∀ h1 : 1 < c.dropdowns.length, (c.dropdowns.get ⟨1, h1⟩).select.value = m)) := by
  have hshape : handleModelChangeV1 st page modelValue modelType outcome =
      { trace := [HmcEv.consoleLog ("Changing " ++ modelType ++ " model to " ++ modelValue),
          HmcEv.putRequest
            { method := "PUT"
              url := "https://www.perplexity.ai/rest/user/save-settings?version=2.13&source=default"
              contentType := "application/json"
              accept := "application/json"
              settingKey := if modelType = "response" then "default_model"
                else "default_image_generation_model"
              settingValue := modelValue
              credentialsInclude := true },
          HmcEv.consoleError, HmcEv.syncCall]
        state := st
        page := syncDropdowns st page } := by
    cases outcome with
    | fetchThrow => rfl
    | response ok js =>
      cases ok <;> cases js <;> first
        | rfl
        | simp [putFailed] at hfail
  rw [hshape]
  refine ⟨rfl, by simp, by simp, rfl, ?_⟩
  intro e he c hc
  simp only [syncDropdowns, List.mem_map] at he
  obtain ⟨e0, he0, rfl⟩ := he
  simp only [List.mem_map] at hc
  obtain ⟨c0, hc0, rfl⟩ := hc
  exact ⟨fun r hr hrne => syncContainer_resets_response st c0 r hr hrne,
    fun m hm hmne => syncContainer_resets_image st c0 m hm hmne⟩

/-- Witness for claim C2 at a concrete input: a failing save with stored
values turbo and default resets the concrete page and keeps the state. -/
theorem handleModelChange_failure_path_witness :
    (handleModelChangeV1 ⟨some "turbo", some "default"⟩ c2PagePost "gpt4o" "response"
      PutOutcome.fetchThrow).state = ⟨some "turbo", some "default"⟩
    ∧ (handleModelChangeV1 ⟨some "turbo", some "default"⟩ c2PagePost "gpt4o" "response"
        PutOutcome.fetchThrow).page =
      syncDropdowns ⟨some "turbo", some "default"⟩ c2PagePost := by
  refine ⟨?_, ?_⟩
  · exact (handleModelChange_failure_path ⟨some "turbo", some "default"⟩ c2PagePost
      "gpt4o" "response" PutOutcome.fetchThrow (by decide)).1
  · exact (handleModelChange_failure_path ⟨some "turbo", some "default"⟩ c2PagePost
      "gpt4o" "response" PutOutcome.fetchThrow (by decide)).2.2.2.1

/-- Claim C6: the two two-dropdown variants are behaviourally equivalent for
the model change operation: for every model value, model type, state, page
and request outcome, handleModelChange of the first variant and of the third
variant produce the same event trace, hence the identical PUT request and
the same syncDropdowns invocations, and the same final state and page, both
on success and on failure. -/
theorem handleModelChange_variants_equivalent (st : ModelState) (page : Page)
    (modelValue modelType : String) (outcome : PutOutcome) :
    handleModelChangeV1 st page modelValue modelType outcome =
      handleModelChangeV3 st page modelValue modelType outcome := by
  cases outcome with
  | fetchThrow => rfl
  | response ok js => cases ok <;> cases js <;> rfl

/-- Claim C3: init applies the two getCurrentModel effects in an order that
does not matter since they write disjoint fields; when both fetches succeed
it sets initialized, installs the observer and invokes injectDropdowns, and
when either fails it logs an error, does not invoke injectDropdowns, and
leaves the initialized and observer flags as they were, in particular false
in the constructor state. -/
theorem init_requires_both_fetches (o1 o2 : SettingsFetchOutcome) (sys : SysState) :
    applyGetCurrentModel "default_image_generation_model" o2
        (applyGetCurrentModel "default_model" o1 sys.st) =
      applyGetCurrentModel "default_model" o1
        (applyGetCurrentModel "default_image_generation_model" o2 sys.st)
    ∧ (fetchSucceeded o1 = true → fetchSucceeded o2 = true →
        (runInit o1 o2 sys).1.initialized = true
        ∧ (runInit o1 o2 sys).1.observerInstalled = true
        ∧ SysAction.injectCall ∈ (runInit o1 o2 sys).2)
    ∧ (fetchSucceeded o1 = false ∨ fetchSucceeded o2 = false →
        SysAction.logError ∈ (runInit o1 o2 sys).2
        ∧ (runInit o1 o2 sys).1.initialized = sys.initialized
        ∧ (runInit o1 o2 sys).1.observerInstalled = sys.observerInstalled
        ∧ SysAction.injectCall ∉ (runInit o1 o2 sys).2) := by
  refine ⟨?_, ?_, ?_⟩
  · obtain ⟨⟨a, b⟩, ini, obs⟩ := sys
    rcases o1 with _ | _ | _ | v1 <;> rcases o2 with _ | _ | _ | v2 <;>
      simp only [applyGetCurrentModel] <;> try rfl
    cases hv1 : optTruthy v1 <;> cases hv2 : optTruthy v2 <;> simp [hv1, hv2]
  · intro h1 h2
    simp [runInit, h1, h2]
  · intro h
    have hand : (fetchSucceeded o1 && fetchSucceeded o2) = false := by
      rcases h with h | h <;> simp [h]
    cases hf1 : fetchSucceeded o1 <;> cases hf2 : fetchSucceeded o2
    · simp [runInit, hf1, hf2]
    · simp [runInit, hf1, hf2]
    · simp [runInit, hf1, hf2]
    · rw [hf1, hf2] at hand
      simp at hand

/-- Witness for claim C3 at concrete inputs: a successful pair of fetches
from the constructor state, and a failing first fetch from it. -/
theorem init_requires_both_fetches_witness :
    (runInit (.success (some "turbo")) (.success (some "default")) sysStart).1.initialized = true
    ∧ SysAction.injectCall ∈
        (runInit (.success (some "turbo")) (.success (some "default")) sysStart).2
    ∧ (runInit .httpError (.success (some "default")) sysStart).1.initialized = false
    ∧ (runInit .httpError (.success (some "default")) sysStart).1.observerInstalled = false
    ∧ SysAction.injectCall ∉ (runInit .httpError (.success (some "default")) sysStart).2 := by
  refine ⟨?_, ?_, ?_, ?_, ?_⟩
  · exact (init_requires_both_fetches (.success (some "turbo")) (.success (some "default"))
      sysStart).2.1 (by decide) (by decide) |>.1
  · exact ((init_requires_both_fetches (.success (some "turbo")) (.success (some "default"))
      sysStart).2.1 (by decide) (by decide)).2.2
  · exact ((init_requires_both_fetches .httpError (.success (some "default"))
      sysStart).2.2 (Or.inl (by decide))).2.1
  · exact ((init_requires_both_fetches .httpError (.success (some "default"))
      sysStart).2.2 (Or.inl (by decide))).2.2.1
  · exact ((init_requires_both_fetches .httpError (.success (some "default"))
      sysStart).2.2 (Or.inl (by decide))).2.2.2

theorem observerCallback_foldl_append (b : Bool) (acc : List SysAction) (ms : List Nat) :
    List.foldl
        (fun acc added => if added != 0 && b then acc ++ [SysAction.injectCall] else acc)
        acc ms =
      acc ++ List.foldl
        (fun acc added => if added != 0 && b then acc ++ [SysAction.injectCall] else acc)
        [] ms := by
  induction ms generalizing acc with
  | nil => simp
  | cons m rest ih =>
    simp only [List.foldl]
    cases hb : (m != 0 && b) with
    | false =>
      simp only [hb, Bool.false_eq_true, if_false]
      exact ih acc
    | true =>
      simp only [hb, eq_self_iff_true, if_true, List.nil_append]
      rw [ih (acc ++ [SysAction.injectCall]), ih [SysAction.injectCall]]
      rw [List.append_assoc]

theorem observerCallback_eq (b : Bool) (ms : List Nat) :
    observerCallback b ms =
      if b then (ms.filter (fun n => n != 0)).map (fun _ => SysAction.injectCall) else [] := by
  induction ms with
  | nil => cases b <;> simp [observerCallback]
  | cons m rest ih =>
    simp only [observerCallback, List.foldl]
    rw [observerCallback_foldl_append]
    cases b with
    | false => simpa [observerCallback] using ih
    | true =>
      cases hm : (m != 0) with
      | false => simpa [hm, List.filter, observerCallback] using ih
      | true =>
        simp only [hm, Bool.and_self, if_pos rfl]
        simpa [hm, List.filter, observerCallback] using ih

theorem runEvents_no_inject (sys : SysState) (events : List PageEvent)
    (hinit : sys.initialized = false) (hobs : sys.observerInstalled = false)
    (h : ∀ e ∈ events, initSucceeding e = false) :
    (runEvents sys events).1.initialized = false
    ∧ (runEvents sys events).1.observerInstalled = false
    ∧ SysAction.injectCall ∉ (runEvents sys events).2 := by
  induction events generalizing sys with
  | nil => exact ⟨hinit, hobs, by simp [runEvents]⟩
  | cons e rest ih =>
    have he : initSucceeding e = false := h e (by simp)
    have hrest : ∀ x ∈ rest, initSucceeding x = false := fun x hx => h x (by simp [hx])
    have hstep : (stepEvent sys e).1.initialized = false
        ∧ (stepEvent sys e).1.observerInstalled = false
        ∧ SysAction.injectCall ∉ (stepEvent sys e).2 := by
      cases e with
      | initDone o1 o2 =>
        have hand : (fetchSucceeded o1 && fetchSucceeded o2) = false := by
          simpa [initSucceeding] using he
        cases hf1 : fetchSucceeded o1 <;> cases hf2 : fetchSucceeded o2
        · simp [stepEvent, runInit, hf1, hf2, hinit, hobs]
        · simp [stepEvent, runInit, hf1, hf2, hinit, hobs]
        · simp [stepEvent, runInit, hf1, hf2, hinit, hobs]
        · rw [hf1, hf2] at hand
          simp at hand
      | domMutation ms => simp [stepEvent, hobs, hinit]
    obtain ⟨hs1, hs2, hs3⟩ := hstep
    obtain ⟨ih1, ih2, ih3⟩ := ih (stepEvent sys e).1 hs1 hs2 hrest
    simp only [runEvents]
    refine ⟨ih1, ih2, ?_⟩
    intro hc
    rcases List.mem_append.mp hc with hc | hc
    · exact hs3 hc
    · exact ih3 hc

/-- Claim C5: the observer callback invokes injectDropdowns exactly once for
each mutation record with at least one added node when the initialized flag
is set, and never otherwise; and across every event sequence starting from
the constructor state, no injectDropdowns invocation occurs unless an init
completion with both settings fetches successful has occurred. -/
theorem observer_injection_discipline (b : Bool) (ms : List Nat)
    (events : List PageEvent) :
    (observerCallback b ms =
      if b then (ms.filter (fun n => n != 0)).map (fun _ => SysAction.injectCall) else [])
    ∧ ((∀ e ∈ events, initSucceeding e = false) →
        SysAction.injectCall ∉ (runEvents sysStart events).2) := by
  exact ⟨observerCallback_eq b ms,
    fun h => (runEvents_no_inject sysStart events rfl rfl h).2.2⟩

/-- Witness for claim C5 at concrete inputs: one of three mutation records
has added nodes, and a mutation batch delivered before a failed init causes
no injection. -/
theorem observer_injection_discipline_witness :
    observerCallback true [0, 2, 0] = [SysAction.injectCall]
    ∧ SysAction.injectCall ∉ (runEvents sysStart
        [PageEvent.domMutation [1],
         PageEvent.initDone .httpError (.success (some "turbo"))]).2 := by
  refine ⟨?_, ?_⟩
  · exact (observer_injection_discipline true [0, 2, 0] []).1
  · exact (observer_injection_discipline true [0, 2, 0]
      [PageEvent.domMutation [1],
       PageEvent.initDone .httpError (.success (some "turbo"))]).2 (by decide)

theorem mkContainer_mainBar (env : PageEnv) (st : ModelState) :
    mkContainer env st mainBarConfig = .ok (mainBarContainer env st) := by
  cases h : onSearchPage env.pathname <;>
    simp [mkContainer, mainBarConfig, mainBarContainer, resolveAdditionalClasses,
      jsIsArray, jsTypeof, jsCall, jsIterate, checkShouldHide, jsTruthy,
      classListAdd, jsToString, h, bind, Except.bind, pure, Except.pure]

theorem mkContainer_newThread (env : PageEnv) (st : ModelState) :
    mkContainer env st newThreadConfig = .ok (newThreadContainer st) := rfl

theorem createDropdown_hidden_mem (models : List ModelEntry) (currentValue : Option String) :
    "hidden" ∈ (createDropdown models currentValue true).classes := by
  simp [createDropdown, classListAdd]

theorem createDropdown_hidden_not_mem (models : List ModelEntry) (currentValue : Option String) :
    "hidden" ∉ (createDropdown models currentValue false).classes := by
  simp [createDropdown, classListAdd]

/-- Claim C10: under the main search bar configuration the injected response
dropdown carries the hidden class exactly when onSearchPage is true at
injection time and the image dropdown is never hidden; under the New Thread
configuration neither dropdown is ever hidden. -/
theorem injected_dropdown_visibility (env : PageEnv) (st : ModelState) :
    (mkContainer env st mainBarConfig).map
        (fun c => c.dropdowns.map (fun d => d.classes.contains "hidden")) =
      .ok [onSearchPage env.pathname, false]
    ∧ (mkContainer env st newThreadConfig).map
        (fun c => c.dropdowns.map (fun d => d.classes.contains "hidden")) =
      .ok [false, false] := by
  rw [mkContainer_mainBar, mkContainer_newThread]
  cases h : onSearchPage env.pathname <;>
    simp [mainBarContainer, newThreadContainer, Except.map, h,
      createDropdown_hidden_mem, createDropdown_hidden_not_mem]

theorem injectForConfig_ok (env : PageEnv) (st : ModelState) (cfg : SelectorConfig)
    (pick : PageElement → Bool) (c : ContainerDiv)
    (hc : mkContainer env st cfg = .ok c) (page : Page) :
    injectForConfig env st cfg pick page = .ok (page.map (injectStep c pick)) := by
  induction page with
  | nil => rfl
  | cons e rest ih =>
    simp only [injectForConfig, List.map, injectStep]
    cases hp : (pick e && e.containers.isEmpty) with
    | true => simp [hp, hc, ih, bind, Except.bind, pure, Except.pure]
    | false => simp [hp, ih, bind, Except.bind, pure, Except.pure]

theorem injectStep_of_nonempty (c : ContainerDiv) (pick : PageElement → Bool)
    (e : PageElement) (h : e.containers ≠ []) : injectStep c pick e = e := by
  obtain ⟨m1, m2, cs, pos⟩ := e
  cases cs with
  | nil => exact absurd rfl h
  | cons c0 cs => simp [injectStep]

theorem injectStep_main_twice (c1 c2 : ContainerDiv) (e : PageElement) :
    injectStep c1 (fun e => e.matchesMainBar)
        (injectStep c2 (fun e => e.matchesNewThread)
          (injectStep c1 (fun e => e.matchesMainBar) e)) =
      injectStep c2 (fun e => e.matchesNewThread)
        (injectStep c1 (fun e => e.matchesMainBar) e) := by
  obtain ⟨m1, m2, cs, pos⟩ := e
  cases m1 <;> cases m2 <;> cases cs <;> simp [injectStep]

theorem injectStep_thread_twice (c1 c2 : ContainerDiv) (e : PageElement) :
    injectStep c2 (fun e => e.matchesNewThread)
        (injectStep c2 (fun e => e.matchesNewThread)
          (injectStep c1 (fun e => e.matchesMainBar) e)) =
      injectStep c2 (fun e => e.matchesNewThread)
        (injectStep c1 (fun e => e.matchesMainBar) e) := by
  obtain ⟨m1, m2, cs, pos⟩ := e
  cases m1 <;> cases m2 <;> cases cs <;> simp [injectStep]

theorem injectDropdowns_ok (env : PageEnv) (st : ModelState) (q : Page) :
    injectDropdowns env st q =
      .ok ((q.map (injectStep (mainBarContainer env st) (fun e => e.matchesMainBar))).map
        (injectStep (newThreadContainer st) (fun e => e.matchesNewThread))) := by
  simp only [injectDropdowns]
  rw [injectForConfig_ok env st mainBarConfig (fun e => e.matchesMainBar)
    (mainBarContainer env st) (mkContainer_mainBar env st) q]
  simp only [bind, Except.bind]
  rw [injectForConfig_ok env st newThreadConfig (fun e => e.matchesNewThread)
    (newThreadContainer st) (mkContainer_newThread env st)]

/-- Claim C4: injectDropdowns is idempotent: an element that already
contains a descendant with class model-selector is skipped entirely, and
running injectDropdowns twice in succession produces the same page as
running it once, so repeated observer-triggered invocations never append a
second dropdown container to the same element. -/
theorem injectDropdowns_idempotent (env : PageEnv) (st : ModelState) (p p' : Page)
    (h : injectDropdowns env st p = .ok p') :
    injectDropdowns env st p' = .ok p'
    ∧ p'.length = p.length
    ∧ ∀ (i : Nat) (hi : i < p.length) (hi' : i < p'.length),
        (p.get ⟨i, hi⟩).containers ≠ [] → p'.get ⟨i, hi'⟩ = p.get ⟨i, hi⟩ := by
  have hp' : p' =
      (p.map (injectStep (mainBarContainer env st) (fun e => e.matchesMainBar))).map
        (injectStep (newThreadContainer st) (fun e => e.matchesNewThread)) := by
    have h2 := h
    rw [injectDropdowns_ok env st p] at h2
    exact (Except.ok.inj h2).symm
  subst hp'
  refine ⟨?_, ?_, ?_⟩
  · rw [injectDropdowns_ok env st]
    have hgen : ∀ q : Page,
        (((q.map (injectStep (mainBarContainer env st) (fun e => e.matchesMainBar))).map
            (injectStep (newThreadContainer st) (fun e => e.matchesNewThread))).map
          (injectStep (mainBarContainer env st) (fun e => e.matchesMainBar))).map
            (injectStep (newThreadContainer st) (fun e => e.matchesNewThread)) =
          (q.map (injectStep (mainBarContainer env st) (fun e => e.matchesMainBar))).map
            (injectStep (newThreadContainer st) (fun e => e.matchesNewThread)) := by
      intro q
      induction q with
      | nil => rfl
      | cons e rest ih =>
        simp only [List.map_cons]
        rw [injectStep_main_twice, injectStep_thread_twice]
        rw [ih]
    exact congrArg Except.ok (hgen p)
  · simp
  · intro i hi hi' hne
    simp only [List.get_eq_getElem, List.getElem_map]
    have hne' : p[i].containers ≠ [] := by simpa using hne
    rw [injectStep_of_nonempty (mainBarContainer env st) (fun e => e.matchesMainBar) _ hne']
    rw [injectStep_of_nonempty (newThreadContainer st) (fun e => e.matchesNewThread) _ hne']

/-- Witness for claim C4 at a concrete input: injecting once into a page
with one main bar element and one New Thread element, then injecting again,
changes nothing. -/
theorem injectDropdowns_idempotent_witness :
    injectDropdowns c4Env ⟨none, none⟩ c4Page = .ok c4PageOnce
    ∧ injectDropdowns c4Env ⟨none, none⟩ c4PageOnce = .ok c4PageOnce := by
  have h : injectDropdowns c4Env ⟨none, none⟩ c4Page = .ok c4PageOnce := by rfl
  exact ⟨h, (injectDropdowns_idempotent c4Env ⟨none, none⟩ c4Page c4PageOnce h).1⟩
